import Mathlib

/-!
Shallow embedding of the PhishIntel browser-extension analysis pipeline
(`src/browser_extension/dist/background.js`) in Lean 4, together with
theorems settling the specification claims about it.

JavaScript conventions are made explicit:
* `undefined` / optional object fields become `Option`;
* JS truthiness of strings (`""` is falsy) and numbers (`0` is falsy) is
  modelled by dedicated `jsOr…` helpers;
* JS numbers are modelled by `ℚ` (all arithmetic appearing in the source is
  exact decimal arithmetic on small constants);
* a thrown JS exception is an `Except.error` carrying the error's
  `name`/`message`; a `catch` block is a `match` on the `Except`.
-/

namespace PhishIntel

/-- A JavaScript exception value: its `name` and `message`. -/
structure JsError where
  name : String
  message : String
deriving DecidableEq, Repr

/-- JS `a || b` for a string-or-undefined `a` (empty string is falsy). -/
def jsOrStr : Option String → String → String
  | some s, d => if s = "" then d else s
  | none, d => d

/-- JS `a || b` for two string-or-undefined operands. -/
def jsOrOpt : Option String → Option String → Option String
  | some s, d => if s = "" then d else some s
  | none, d => d

/-- JS `a || b` for a number-or-undefined `a` (the number 0 is falsy). -/
def jsOrNum : Option ℚ → ℚ → ℚ
  | some q, d => if q = 0 then d else q
  | none, d => d

/-- JS template interpolation of a string-or-undefined value
(`${undefined}` renders as the literal text `undefined`). -/
def jsTemplate : Option String → String
  | some s => s
  | none => "undefined"

/-- An email attachment as the monitors hand it over: only the name is used. -/
structure Attachment where
  name : String
deriving DecidableEq, Repr

/-- The normalized email record produced by a provider monitor (the `emailData`
object).  `from` is a Lean keyword, hence the field name `fromAddr`. -/
structure EmailData where
  fromAddr : String
  fromName : Option String := none
  subject : String
  body : Option String := none
  bodyText : Option String := none
  timestamp : ℕ := 0
  provider : Option String := none
  attachments : Option (List Attachment) := none
  urls : Option (List String) := none
  toAddr : Option String := none
  isReply : Bool := false
  isUnread : Bool := false
  spfPass : Bool := false
  dkimPass : Bool := false
deriving DecidableEq, Repr

/-- The feature vector built by `extractFeatures` (background.js:398-423).
Fields computed by the `check…` helpers are JS numbers `0`/`1`, kept as `ℕ`;
fields copied from booleans stay `Bool`. -/
structure Features where
  has_suspicious_tld : ℕ
  sender_domain_age : ℕ
  has_display_name_mismatch : ℕ
  subject_length : ℕ
  body_length : ℕ
  has_urgent_keywords : ℕ
  has_financial_keywords : ℕ
  num_links : ℕ
  num_external_links : ℕ
  has_shortened_urls : ℕ
  has_suspicious_attachments : ℕ
  num_attachments : ℕ
  html_to_text_ratio : ℚ
  has_hidden_text : ℕ
  num_images : ℕ
  is_reply : Bool
  time_of_day : ℕ
  has_spf_pass : Bool
  has_dkim_pass : Bool
  is_unread : Bool
  provider : String
deriving DecidableEq, Repr

/-- The canonical analysis result object.  Optional fields model object
properties that are absent on some of the four result shapes (scanner
disabled, internal error, normalized remote, local fallback). -/
structure AnalysisResult where
  prediction : String
  threat : Bool
  confidence : ℚ
  confidence_score : Option ℚ := none
  threat_level : Option String := none
  threatType : Option String := none
  model_version : Option String := none
  urls_found : ℕ := 0
  indicators : List String := []
  fallback : Bool := false
  local_analysis : Bool := false
  message : Option String := none
  error : Option String := none
  extracted_features : Option Features := none
deriving DecidableEq, Repr

/-- A remote 2xx response body as parsed JSON (background.js:238): every field
the normalization reads, each possibly absent.  `is_phishing` is read only for
its truthiness, so absent/falsy collapses to `false`. -/
structure RemoteBody where
  prediction : Option String := none
  is_phishing : Bool := false
  confidence : Option ℚ := none
  confidence_score : Option ℚ := none
  threat_level : Option String := none
  threat_type : Option String := none
  threatType : Option String := none
  model_version : Option String := none
  urls_found : Option ℕ := none
  extracted_features : Option Features := none
deriving DecidableEq, Repr

/-- background.js:495-500.  `determineThreatLevel(confidence)` on an actual
number. -/
def determineThreatLevel (confidence : ℚ) : String :=
  if confidence ≥ 9/10 then "CRITICAL"
  else if confidence ≥ 7/10 then "HIGH"
  else if confidence ≥ 1/2 then "MEDIUM"
  else "LOW"

/-- The call `determineThreatLevel(result.confidence_score)` at
background.js:245 passes the raw field, which may be `undefined`; every
`undefined >= x` comparison is false in JS, so the absent case yields "LOW". -/
def determineThreatLevelJS : Option ℚ → String
  | some c => determineThreatLevel c
  | none => "LOW"

/-- Strict equality test `result.prediction === 'phish'` (background.js:242):
an absent field is not equal to the string. -/
def predIsPhishStrict : Option String → Bool
  | some s => s = "phish"
  | none => false

/-- Normalization of a 2xx response into the canonical result shape
(background.js:240-252). -/
def normalizeRemote (result : RemoteBody) (features : Features) : AnalysisResult :=
  { prediction := jsOrStr result.prediction (if result.is_phishing then "phish" else "legit")
    threat := predIsPhishStrict result.prediction || result.is_phishing
    confidence := jsOrNum result.confidence_score (jsOrNum result.confidence 0)
    confidence_score := some (jsOrNum result.confidence_score (jsOrNum result.confidence 0))
    threat_level := some (jsOrStr result.threat_level (determineThreatLevelJS result.confidence_score))
    threatType := some (jsOrStr result.threat_type (jsOrStr result.threatType "phishing"))
    model_version := some (jsOrStr result.model_version "unknown")
    urls_found := result.urls_found.getD 0
    extracted_features := some (result.extracted_features.getD features) }

/-- The suspicion score accumulated by `performLocalAnalysis`
(background.js:337-378): a weighted sum over the fixed indicator set. -/
def suspicionScore (f : Features) : ℚ :=
  (if f.has_suspicious_tld ≠ 0 then 3/10 else 0)
  + (if f.has_urgent_keywords ≠ 0 then 2/10 else 0)
  + (if f.has_financial_keywords ≠ 0 then 2/10 else 0)
  + (if f.has_shortened_urls ≠ 0 then 25/100 else 0)
  + (if f.has_display_name_mismatch ≠ 0 then 35/100 else 0)
  + (if f.has_suspicious_attachments ≠ 0 then 4/10 else 0)
  + (if f.num_external_links > 5 then 15/100 else 0)
  + (if !f.has_spf_pass && !f.has_dkim_pass then 2/10 else 0)

/-- The indicator list accumulated alongside the score (explainability). -/
def localIndicators (f : Features) : List String :=
  (if f.has_suspicious_tld ≠ 0 then ["Suspicious domain extension"] else [])
  ++ (if f.has_urgent_keywords ≠ 0 then ["Urgent language detected"] else [])
  ++ (if f.has_financial_keywords ≠ 0 then ["Financial terms detected"] else [])
  ++ (if f.has_shortened_urls ≠ 0 then ["Shortened URLs found"] else [])
  ++ (if f.has_display_name_mismatch ≠ 0 then ["Sender name mismatch"] else [])
  ++ (if f.has_suspicious_attachments ≠ 0 then ["Suspicious attachments"] else [])
  ++ (if f.num_external_links > 5 then ["Many external links"] else [])
  ++ (if !f.has_spf_pass && !f.has_dkim_pass then ["Email authentication failed"] else [])

/-- Local heuristic fallback scorer (background.js:336-395). -/
def performLocalAnalysis (features : Features) : AnalysisResult :=
  let confidence := min (suspicionScore features) 1
  let isPhishing := confidence > 1/2
  { prediction := if isPhishing then "phish" else "legit"
    threat := isPhishing
    confidence := confidence
    confidence_score := some confidence
    threat_level := some (determineThreatLevel confidence)
    threatType := some "phishing"
    model_version := some "local-heuristic-v1"
    indicators := localIndicators features
    fallback := true
    local_analysis := true }

/-! String machinery shared by the feature-extraction helpers.  JS
`toLowerCase` / `\s` / `.length` act on UTF-16 strings; the Lean model uses
per-character code points, which agrees on the ASCII data these lexicons and
patterns consist of. -/

/-- Lowercase a character list (models JS `toLowerCase` on ASCII data). -/
def lowerList (cs : List Char) : List Char := cs.map Char.toLower

/-- JS `haystack.includes(needle)`: contiguous substring test. -/
def containsSub (hay needle : List Char) : Bool :=
  match hay with
  | [] => needle.isEmpty
  | _ :: t => needle.isPrefixOf hay || containsSub t needle

/-- JS `s.endsWith(suffix)`. -/
def endsWithSub (s suffix : List Char) : Bool :=
  suffix.isPrefixOf (s.reverse.take suffix.length).reverse

/-- Case-insensitive match of a literal pattern at the head of `cs`. -/
def headMatchCI (pat : List Char) (cs : List Char) : Bool :=
  lowerList (cs.take pat.length) = pat

/-- background.js:426-430, `checkSuspiciousTLD`: 1 if the lowercased sender
address contains one of the suspicious TLD strings, else 0 (0 when the
address is falsy, i.e. empty). -/
def checkSuspiciousTLD (email : String) : ℕ :=
  if email = "" then 0
  else if ([".xyz", ".top", ".work", ".click", ".loan", ".win", ".gq", ".tk",
            ".ml", ".ga", ".cf", ".buzz"] : List String).any
          (fun tld => containsSub (lowerList email.toList) tld.toList) then 1 else 0

/-- background.js:432-438, `checkDisplayNameMismatch`: 1 when the display name
mentions a trusted brand that the sender's domain does not contain. -/
def checkDisplayNameMismatch (email : String) (displayName : Option String) : ℕ :=
  match displayName with
  | none => 0
  | some dn =>
    if dn = "" ∨ email = "" then 0
    else
      let emailDomain := lowerList ((email.splitOn "@").getD 1 "").toList
      let nameLower := lowerList dn.toList
      if (["paypal", "amazon", "microsoft", "google", "apple", "bank", "wells",
           "chase", "citibank"] : List String).any
          (fun d => containsSub nameLower d.toList && !containsSub emailDomain d.toList)
      then 1 else 0

/-- background.js:440-444, `checkUrgentKeywords` over
``${subject} ${body}`.toLowerCase()`` (an undefined body renders as the text
`undefined`). -/
def checkUrgentKeywords (subject : String) (body : Option String) : ℕ :=
  let text := lowerList (subject ++ " " ++ jsTemplate body).toList
  if (["urgent", "immediate", "action required", "suspended", "verify",
       "confirm", "expire", "limited time", "act now", "click here",
       "update required", "security alert", "unusual activity",
       "verify your account"] : List String).any
      (fun w => containsSub text w.toList) then 1 else 0

/-- background.js:446-450, `checkFinancialKeywords`. -/
def checkFinancialKeywords (subject : String) (body : Option String) : ℕ :=
  let text := lowerList (subject ++ " " ++ jsTemplate body).toList
  if (["payment", "invoice", "refund", "credit card", "bank account",
       "wire transfer", "paypal", "bitcoin", "cryptocurrency", "transaction",
       "billing", "debit card", "ssn", "social security", "tax return",
       "irs"] : List String).any
      (fun w => containsSub text w.toList) then 1 else 0

/-- Character class `[^\s<>"]` of the link regex at background.js:454. -/
def isUrlChar (c : Char) : Bool := !(c.isWhitespace || c = '<' || c = '>' || c = '"')

/-- Character class `[^\s<>/"]` of the external-link regex at
background.js:462 (also excludes `/`). -/
def isHostChar (c : Char) : Bool := isUrlChar c && c ≠ '/'

/-- Counts matches of `/https?:\/\/[^\s<>"]+/gi` scanning left to right
(background.js:452-456): a protocol prefix followed by at least one url
character; on a match the scan resumes after it, otherwise at the next
character. -/
def countLinksAux : List Char → ℕ
  | [] => 0
  | c :: rest =>
    let cs := c :: rest
    if headMatchCI "https://".toList cs ∨ headMatchCI "http://".toList cs then
      let n := if headMatchCI "https://".toList cs then 8 else 7
      let run := (cs.drop n).takeWhile isUrlChar
      if run.isEmpty then countLinksAux rest
      else countLinksAux ((cs.drop n).drop run.length)
    else countLinksAux rest
termination_by cs => cs.length
decreasing_by
  all_goals simp only [List.length_cons, List.length_drop]
  all_goals first
  | omega
  | (split <;> omega)

/-- background.js:452-456, `countLinks` (0 when the body is falsy). -/
def countLinks (body : Option String) : ℕ :=
  match body with
  | none => 0
  | some b => if b = "" then 0 else countLinksAux b.toList

/-- Collects the full matches of `/https?:\/\/([^\s<>/"]+)/gi`
(background.js:462-463), each as its original-case character run. -/
def collectHostLinks : List Char → List (List Char)
  | [] => []
  | c :: rest =>
    let cs := c :: rest
    if headMatchCI "https://".toList cs ∨ headMatchCI "http://".toList cs then
      let n := if headMatchCI "https://".toList cs then 8 else 7
      let run := (cs.drop n).takeWhile isHostChar
      if run.isEmpty then collectHostLinks rest
      else (cs.take n ++ run) :: collectHostLinks ((cs.drop n).drop run.length)
    else collectHostLinks rest
termination_by cs => cs.length
decreasing_by
  all_goals simp only [List.length_cons, List.length_drop]
  all_goals first
  | omega
  | (split <;> omega)

/-- background.js:458-465, `countExternalLinks`: matches whose text does not
contain the sender's domain (case-sensitive `includes`); 0 when the body,
the sender, or the domain part is falsy. -/
def countExternalLinks (body : Option String) (senderEmail : String) : ℕ :=
  match body with
  | none => 0
  | some b =>
    if b = "" ∨ senderEmail = "" then 0
    else
      let domain := (senderEmail.splitOn "@").getD 1 ""
      if domain = "" then 0
      else ((collectHostLinks b.toList).filter
             (fun link => !containsSub link domain.toList)).length

/-- background.js:467-471, `checkShortenedUrls`: case-sensitive `includes`
over the shortener list. -/
def checkShortenedUrls (body : Option String) : ℕ :=
  match body with
  | none => 0
  | some b =>
    if b = "" then 0
    else if (["bit.ly", "tinyurl.com", "goo.gl", "t.co", "ow.ly", "is.gd",
              "buff.ly", "adf.ly"] : List String).any
            (fun s => containsSub b.toList s.toList) then 1 else 0

/-- background.js:473-477, `checkSuspiciousAttachments`. -/
def checkSuspiciousAttachments (attachments : Option (List Attachment)) : ℕ :=
  match attachments with
  | none => 0
  | some atts =>
    if atts.isEmpty then 0
    else if atts.any (fun att =>
        ([".exe", ".scr", ".bat", ".cmd", ".js", ".vbs", ".jar", ".msi",
          ".app", ".dmg", ".apk"] : List String).any
          (fun ext => endsWithSub (lowerList att.name.toList) ext.toList))
    then 1 else 0

/-- background.js:479-482, `calculateHtmlRatio`: capped at 10; 0 when either
argument is falsy. -/
def calculateHtmlRatio (html text : Option String) : ℚ :=
  match html, text with
  | some h, some t =>
    if h = "" ∨ t = "" then 0
    else min ((h.length : ℚ) / (if t.length = 0 then 1 else (t.length : ℚ))) 10
  | _, _ => 0

/-- Matches one alternative `pat1` `\s*` `pat2` of the hidden-text regex at
the head of `cs`, case-insensitively. -/
def hiddenAltAt (pat1 pat2 : List Char) (cs : List Char) : Bool :=
  headMatchCI pat1 cs
    && headMatchCI pat2 ((cs.drop pat1.length).dropWhile Char.isWhitespace)

/-- Tests the regex `/display:\s*none|visibility:\s*hidden|font-size:\s*0|color:\s*#fff/i`
at some position of the list (background.js:484-487). -/
def hiddenTextSearch : List Char → Bool
  | [] => false
  | c :: rest =>
    hiddenAltAt "display:".toList "none".toList (c :: rest)
    || hiddenAltAt "visibility:".toList "hidden".toList (c :: rest)
    || hiddenAltAt "font-size:".toList "0".toList (c :: rest)
    || hiddenAltAt "color:".toList "#fff".toList (c :: rest)
    || hiddenTextSearch rest

/-- background.js:484-487, `checkHiddenText`. -/
def checkHiddenText (body : Option String) : ℕ :=
  match body with
  | none => 0
  | some b => if b = "" then 0 else if hiddenTextSearch b.toList then 1 else 0

/-- Counts matches of `/<img[^>]*>/gi` (background.js:489-493): `<img`, a run
without `>`, then a closing `>`.  The run is the longest `>`-free stretch, so
the remainder after it is either empty (no closing `>`, hence no match — the
scan moves one character on) or starts with the closing `>` (a match; the
scan resumes after that `>`). -/
def countImagesAux : List Char → ℕ
  | [] => 0
  | c :: rest =>
    let cs := c :: rest
    if headMatchCI "<img".toList cs then
      let run := (cs.drop 4).takeWhile (fun ch => ch ≠ '>')
      if ((cs.drop 4).drop run.length).isEmpty then countImagesAux rest
      else 1 + countImagesAux ((cs.drop 4).drop (run.length + 1))
    else countImagesAux rest
termination_by cs => cs.length
decreasing_by
  all_goals simp only [List.length_cons, List.length_drop]
  all_goals omega

/-- background.js:489-493, `countImages`. -/
def countImages (body : Option String) : ℕ :=
  match body with
  | none => 0
  | some b => if b = "" then 0 else countImagesAux b.toList

/-- background.js:398-423, `extractFeatures`.  `getHours()` is host-local
time; it is modelled as UTC hours of the epoch timestamp (no claim depends
on it). -/
def extractFeatures (emailData : EmailData) : Features :=
  { has_suspicious_tld := checkSuspiciousTLD emailData.fromAddr
    sender_domain_age := 0
    has_display_name_mismatch :=
      checkDisplayNameMismatch emailData.fromAddr emailData.fromName
    subject_length := emailData.subject.length
    body_length := (jsOrOpt emailData.bodyText emailData.body).getD "" |>.length
    has_urgent_keywords :=
      checkUrgentKeywords emailData.subject (jsOrOpt emailData.bodyText emailData.body)
    has_financial_keywords :=
      checkFinancialKeywords emailData.subject (jsOrOpt emailData.bodyText emailData.body)
    num_links :=
      match emailData.urls with
      | some urls => urls.length
      | none => countLinks emailData.body
    num_external_links := countExternalLinks emailData.body emailData.fromAddr
    has_shortened_urls := checkShortenedUrls emailData.body
    has_suspicious_attachments := checkSuspiciousAttachments emailData.attachments
    num_attachments := (emailData.attachments.getD []).length
    html_to_text_ratio := calculateHtmlRatio emailData.body emailData.bodyText
    has_hidden_text := checkHiddenText emailData.body
    num_images := countImages emailData.body
    is_reply := emailData.isReply
    time_of_day := emailData.timestamp / 3600000 % 24
    has_spf_pass := emailData.spfPass
    has_dkim_pass := emailData.dkimPass
    is_unread := emailData.isUnread
    provider := jsOrStr emailData.provider "unknown" }

/-! Cache key generation (background.js:530-533).  `btoa` base64-encodes a
string of Latin-1 code units and throws `InvalidCharacterError` on any unit
above 255 (characters above U+00FF, including each surrogate of an astral
character, all exceed 255). -/

/-- The base64 alphabet, indexed 0-63. -/
def b64Char (n : ℕ) : Char :=
  "ABCDEFGHIJKLMNOPQRSTUVWXYZabcdefghijklmnopqrstuvwxyz0123456789+/".toList.getD n 'A'

/-- Base64-encodes a byte list, three bytes to four characters, padding the
final partial group with `=`. -/
def btoaBytes : List ℕ → List Char
  | [] => []
  | [b1] => [b64Char (b1 / 4), b64Char (b1 % 4 * 16), '=', '=']
  | [b1, b2] =>
    [b64Char (b1 / 4), b64Char (b1 % 4 * 16 + b2 / 16), b64Char (b2 % 16 * 4), '=']
  | b1 :: b2 :: b3 :: rest =>
    b64Char (b1 / 4) :: b64Char (b1 % 4 * 16 + b2 / 16)
      :: b64Char (b2 % 16 * 4 + b3 / 64) :: b64Char (b3 % 64)
      :: btoaBytes rest

/-- JS `btoa`: fails on any code unit above 255, otherwise base64 of the
code-unit bytes. -/
def btoa (s : String) : Except JsError String :=
  if s.toList.all (fun c => c.toNat ≤ 255) then
    .ok ⟨btoaBytes (s.toList.map Char.toNat)⟩
  else
    .error ⟨"InvalidCharacterError", "The string to be encoded contains characters outside of the Latin1 range."⟩

/-- The string whose base64 becomes the cache key:
`${emailData.from}${emailData.subject}${emailData.bodyText || ''}`
(background.js:531). -/
def cacheContent (emailData : EmailData) : String :=
  emailData.fromAddr ++ emailData.subject ++ emailData.bodyText.getD ""

/-- background.js:530-533, `generateCacheKey`: `btoa(content).substring(0, 32)`.
Propagates the `btoa` exception. -/
def generateCacheKey (emailData : EmailData) : Except JsError String :=
  (btoa (cacheContent emailData)).map (fun b => ⟨b.toList.take 32⟩)

/-! The result cache (background.js:535-557) lives in `chrome.storage.local`
under keys `cache_<key>`; the store is modelled as a map from cache key to
entry.  `getCachedResult` only reads the store; it is given — and returns —
the store unchanged, which states in the model that `get` performs no
deletion. -/

/-- A cache entry: the stored result and its write timestamp (ms). -/
structure CacheEntry where
  result : AnalysisResult
  timestamp : ℕ
deriving DecidableEq

/-- The cache portion of `chrome.storage.local`. -/
def CacheStore := String → Option CacheEntry

/-- background.js:535-546, `getCachedResult`: a hit only when
`now - entry.timestamp < 3600000` ms; otherwise `null`.  The second component
is the store after the call — `get` never writes or deletes. -/
def getCachedResult (store : CacheStore) (now : ℕ) (key : String) :
    Option AnalysisResult × CacheStore :=
  match store key with
  | some cached =>
    if now - cached.timestamp < 3600000 then (some cached.result, store)
    else (none, store)
  | none => (none, store)

/-- background.js:548-557, `cacheResult`: unconditional overwrite of the key
with the result and the current timestamp. -/
def cacheResult (store : CacheStore) (now : ℕ) (key : String)
    (result : AnalysisResult) : CacheStore :=
  fun k => if k = key then some ⟨result, now⟩ else store k

/-! History and statistics (background.js:559-622). -/

/-- An `analysisHistory` entry (background.js:563-570). -/
structure HistoryEntry where
  timestamp : ℕ
  fromAddr : String
  subject : String
  prediction : String
  confidence : Option ℚ
  provider : Option String
deriving DecidableEq

/-- background.js:559-577, `logToHistory`: push onto `analysisHistory`, then
shift the oldest entry out when the length exceeds 50. -/
def logToHistory (history : List HistoryEntry) (now : ℕ) (emailData : EmailData)
    (result : AnalysisResult) : List HistoryEntry :=
  let history := history ++ [⟨now, emailData.fromAddr, emailData.subject,
    result.prediction, result.confidence_score, emailData.provider⟩]
  if history.length > 50 then history.tail else history

/-- A `scanHistory` entry (background.js:607-611). -/
structure ScanEvent where
  timestamp : ℕ
  threat : Bool
  provider : String
deriving DecidableEq

/-- The statistics kept in `chrome.storage.local`; absent keys are read back
through `|| 0` / `|| {}` / `|| []`, so zero/empty defaults are the model.
`providerStats` is a JS object keyed by provider name, i.e. a map. -/
structure Stats where
  totalScanned : ℕ
  threatsDetected : ℕ
  emailsQuarantined : ℕ
  lastScan : ℕ
  providerStats : String → Option (ℕ × ℕ)
  scanHistory : List ScanEvent

/-- The payload of an `updateStats` message. -/
structure StatsEvent where
  isThreat : Bool
  provider : Option String
deriving DecidableEq

/-- background.js:579-622, `updateStatistics`: increments `totalScanned`,
conditionally increments `threatsDetected`, stamps `lastScan`, updates the
per-provider `{scanned, threats}` pair (creating `{scanned: 0, threats: 0}`
on first sight, background.js:595-602), and pushes onto `scanHistory`,
shifting when the length exceeds 100. -/
def updateStatistics (stats : Stats) (now : ℕ) (data : StatsEvent) : Stats :=
  let provider := jsOrStr data.provider "unknown"
  let pair := (stats.providerStats provider).getD (0, 0)
  let pair := (pair.1 + 1, pair.2 + (if data.isThreat then 1 else 0))
  let scanHistory := stats.scanHistory ++ [⟨now, data.isThreat, provider⟩]
  { totalScanned := stats.totalScanned + 1
    threatsDetected := stats.threatsDetected + (if data.isThreat then 1 else 0)
    emailsQuarantined := stats.emailsQuarantined
    lastScan := now
    providerStats := fun q => if q = provider then some pair else stats.providerStats q
    scanHistory := if scanHistory.length > 100 then scanHistory.tail else scanHistory }

/-! The remote classifier client (background.js:185-266) and the orchestrator
(background.js:114-182).  The network is a function from the attempt number
(1-based) to that attempt's outcome; `API_CONFIG` is
`{timeout: 30000, retryAttempts: 3, retryDelay: 1000}`. -/

/-- The outcome of one `fetch` of `POST {endpoint}/analyze`. -/
inductive NetOutcome where
  /-- The 30 s timer fired and aborted the request: `fetch` rejects with an
  `AbortError`. -/
  | timeout
  /-- A non-2xx response with this status code (`response.ok` false). -/
  | status (code : ℕ)
  /-- A 2xx response whose body is not valid JSON: `response.json()` throws. -/
  | malformed
  /-- A 2xx response with this parsed JSON body. -/
  | ok (body : RemoteBody)

/-- `API_CONFIG.retryAttempts` (background.js:7). -/
def retryAttempts : ℕ := 3

/-- `API_CONFIG.retryDelay` in ms (background.js:8). -/
def retryDelay : ℕ := 1000

/-- What one invocation of `analyzeWithBackend` did, besides its value: the
number of `fetch` calls it (and its retries) issued, the sleeps between them
in chronological order (ms), whether the stored credentials were cleared (the
401 branch, background.js:220-225), and the message of the error its own
`catch` swallowed, if any. -/
structure BackendOutcome where
  result : AnalysisResult
  attemptsMade : ℕ
  sleeps : List ℕ
  authCleared : Bool
  caught : List String
deriving DecidableEq

/-- background.js:185-266, `analyzeWithBackend`.  Every error thrown inside
the `try` — the `AbortError` of a timed-out `fetch`, the 401/429/other-status
`Error`s, the JSON `SyntaxError` — is caught by the function's own `catch`
(background.js:254-265), which retries on `AbortError` below the attempt cap
and otherwise returns `performLocalAnalysis`; so the function only ever
resolves.  The value is `Except` so that a rejection of the returned promise
would be expressible (`.error`); the 429 retry (background.js:231) returns
the un-awaited recursive promise, whose rejection would bypass the local
`catch`, hence that branch propagates the recursive `Except` unhandled. -/
def analyzeWithBackend (net : ℕ → NetOutcome) (features : Features)
    (attempt : ℕ) : Except JsError BackendOutcome :=
  match net attempt with
  | .timeout =>
    -- catch: error.name === 'AbortError' (background.js:255-261)
    if h : attempt < retryAttempts then
      (analyzeWithBackend net features (attempt + 1)).map (fun r =>
        { r with attemptsMade := r.attemptsMade + 1
                 sleeps := retryDelay * attempt :: r.sleeps
                 caught := "AbortError" :: r.caught })
    else
      .ok { result := performLocalAnalysis features, attemptsMade := 1,
            sleeps := [], authCleared := false, caught := ["AbortError"] }
  | .status code =>
    if code = 401 then
      -- clear auth, throw; the throw is caught below in the same invocation
      -- and turned into the local fallback (background.js:220-225, 254-265)
      .ok { result := performLocalAnalysis features, attemptsMade := 1,
            sleeps := [], authCleared := true,
            caught := ["Authentication expired. Please sign in again."] }
    else if code = 429 then
      if h : attempt < retryAttempts then
        -- sleep, then return the recursive call (background.js:229-231)
        (analyzeWithBackend net features (attempt + 1)).map (fun r =>
          { r with attemptsMade := r.attemptsMade + 1
                   sleeps := retryDelay * attempt :: r.sleeps })
      else
        .ok { result := performLocalAnalysis features, attemptsMade := 1,
              sleeps := [], authCleared := false,
              caught := ["API rate limit exceeded"] }
    else
      -- throw `API request failed: ...`, caught → local fallback
      .ok { result := performLocalAnalysis features, attemptsMade := 1,
            sleeps := [], authCleared := false,
            caught := ["API request failed"] }
  | .malformed =>
    -- response.json() throws, caught → local fallback
    .ok { result := performLocalAnalysis features, attemptsMade := 1,
          sleeps := [], authCleared := false, caught := ["SyntaxError"] }
  | .ok body =>
    .ok { result := normalizeRemote body features, attemptsMade := 1,
          sleeps := [], authCleared := false, caught := [] }
termination_by retryAttempts - attempt

/-- The settings read by `getSettings` (background.js:503-523) that the
analysis path consults. -/
structure Settings where
  enabled : Bool
  notificationsEnabled : Bool
deriving DecidableEq

/-- The observable outcome of one `handleEmailAnalysis` call: the resolved
result together with the side effects the call performed. -/
structure OrchOutcome where
  result : AnalysisResult
  networkCalled : Bool
  attemptsMade : ℕ
  sleeps : List ℕ
  authCleared : Bool
  cacheWrites : List (String × AnalysisResult)
  historyAppends : List HistoryEntry
  notified : Bool
  /-- Whether `updateStatistics` ran during the call.  `handleEmailAnalysis`
  never invokes it: the statistics store is only touched by a separate
  `updateStats` message (background.js:86-90). -/
  statsUpdated : Bool
  localScorerRan : Bool
deriving DecidableEq

/-- The short-circuit result returned when scanning is disabled
(background.js:120-127). -/
def scannerDisabledResult : AnalysisResult :=
  { prediction := "legit", threat := false, confidence := 0,
    message := some "Scanner disabled" }

/-- The result built by the catch-all of `handleEmailAnalysis`
(background.js:171-181) from the caught error. -/
def internalErrorResult (e : JsError) : AnalysisResult :=
  { prediction := "error", threat := false, confidence := 0,
    error := some e.message, fallback := true }

/-- The `try` block of `handleEmailAnalysis` (background.js:117-169):
disabled short-circuit, cache-key generation (which can throw), cache lookup,
feature extraction, backend call, cache write, notification, history append.
Statistics are not updated anywhere on this path. -/
def handleTry (settings : Settings) (emailData : EmailData) (store : CacheStore)
    (now : ℕ) (net : ℕ → NetOutcome) : Except JsError OrchOutcome := do
  if !settings.enabled then
    return { result := scannerDisabledResult
             networkCalled := false, attemptsMade := 0, sleeps := []
             authCleared := false, cacheWrites := [], historyAppends := []
             notified := false, statsUpdated := false, localScorerRan := false }
  let cacheKey ← generateCacheKey emailData
  match (getCachedResult store now cacheKey).1 with
  | some cached =>
    return { result := cached
             networkCalled := false, attemptsMade := 0, sleeps := []
             authCleared := false, cacheWrites := [], historyAppends := []
             notified := false, statsUpdated := false, localScorerRan := false }
  | none =>
    let features := extractFeatures emailData
    let b ← analyzeWithBackend net features 1
    let result := b.result
    return { result := result
             networkCalled := true
             attemptsMade := b.attemptsMade
             sleeps := b.sleeps
             authCleared := b.authCleared
             cacheWrites := [(cacheKey, result)]
             historyAppends := [⟨now, emailData.fromAddr, emailData.subject,
               result.prediction, result.confidence_score, emailData.provider⟩]
             notified := (result.prediction = "phish" || result.threat)
               && settings.notificationsEnabled
             statsUpdated := false
             localScorerRan := result.local_analysis }

/-- background.js:114-182, `handleEmailAnalysis`: the `try` block above under
a catch-all that converts any thrown error into the error-shaped result
(background.js:171-181), so the promise always resolves (`Except.ok`). -/
def handleEmailAnalysis (settings : Settings) (emailData : EmailData)
    (store : CacheStore) (now : ℕ) (net : ℕ → NetOutcome) :
    Except JsError OrchOutcome :=
  match handleTry settings emailData store now net with
  | .ok outcome => .ok outcome
  | .error e =>
    .ok { result := internalErrorResult e
          networkCalled := false, attemptsMade := 0, sleeps := []
          authCleared := false, cacheWrites := [], historyAppends := []
          notified := false, statsUpdated := false, localScorerRan := false }

/-! Concrete fixtures used by witnesses and counterexamples. -/

/-- Default settings: scanning enabled, notifications enabled. -/
def settings0 : Settings := ⟨true, true⟩

/-- A cold (empty) cache store. -/
def store0 : CacheStore := fun _ => none

/-- A plain all-ASCII email record. -/
def email0 : EmailData :=
  { fromAddr := "alice@example.com", subject := "hello",
    body := some "hi", bodyText := some "hi" }

/-- A network that answers HTTP 401 on every attempt. -/
def net401 : ℕ → NetOutcome := fun _ => .status 401

/-- A network that answers HTTP 429 on every attempt. -/
def net429 : ℕ → NetOutcome := fun _ => .status 429

/-- A 2xx body: high-confidence phishing with `confidence_score` present. -/
def body95 : RemoteBody := { prediction := some "phish", confidence_score := some (19/20) }

/-- A 2xx body carrying `confidence` 0.95 under that field name only, with no
`threat_level` — the scenario of claim C4. -/
def bodyConfOnly : RemoteBody := { prediction := some "phish", confidence := some (19/20) }

/-- A 2xx body whose `prediction` and `is_phishing` fields disagree. -/
def bodyBad : RemoteBody := { prediction := some "legit", is_phishing := true }

/-- A network that answers 2xx with `body95` on every attempt. -/
def netOk95 : ℕ → NetOutcome := fun _ => .ok body95

/-- A feature vector firing exactly the suspicious-TLD and urgent-language
indicators (SPF passes, so the auth-failure indicator does not fire). -/
def fEx : Features :=
  { has_suspicious_tld := 1, sender_domain_age := 0,
    has_display_name_mismatch := 0, subject_length := 0, body_length := 0,
    has_urgent_keywords := 1, has_financial_keywords := 0, num_links := 0,
    num_external_links := 0, has_shortened_urls := 0,
    has_suspicious_attachments := 0, num_attachments := 0,
    html_to_text_ratio := 0, has_hidden_text := 0, num_images := 0,
    is_reply := false, time_of_day := 0, has_spf_pass := true,
    has_dkim_pass := false, is_unread := false, provider := "gmail" }

/-- A cache entry written at time 0. -/
def wEntry : CacheEntry := ⟨scannerDisabledResult, 0⟩

/-- A store holding `wEntry` under the key "k". -/
def wStore : CacheStore := fun k => if k = "k" then some wEntry else none

/-- Email whose cache content is exactly 24 characters of `a`. -/
def eA : EmailData :=
  { fromAddr := "aaaaaaaaaaaaaaaaaaaaaaaa", subject := "", bodyText := some "" }

/-- Email agreeing with `eA` on the 24-character prefix but continuing with a
character above the Latin-1 range (U+0101). -/
def eB : EmailData :=
  { fromAddr := "aaaaaaaaaaaaaaaaaaaaaaaa", subject := "ā", bodyText := some "" }

/-- Email agreeing with `eA` on the 24-character prefix, ASCII tail. -/
def eC : EmailData :=
  { fromAddr := "aaaaaaaaaaaaaaaaaaaaaaaa", subject := "xyz", bodyText := some "" }

/-- An email whose subject contains U+014D (code point 333 > 255). -/
def emailHigh : EmailData :=
  { fromAddr := "bob@example.com", subject := "ōops", bodyText := some "news" }

/-- Empty statistics. -/
def st0 : Stats := ⟨0, 0, 0, 0, fun _ => none, []⟩

/-- A threat event from the gmail provider. -/
def d0 : StatsEvent := ⟨true, some "gmail"⟩

/-! Helper lemmas: single-step unfoldings of the remote client and of the
orchestrator's fresh-analysis path. -/

/-- One attempt answered 401: auth cleared, own catch returns the local
fallback, no retry. -/
theorem backend_status_401 (net : ℕ → NetOutcome) (f : Features) (a : ℕ)
    (h : net a = .status 401) :
    analyzeWithBackend net f a = .ok ⟨performLocalAnalysis f, 1, [], true,
      ["Authentication expired. Please sign in again."]⟩ := by
  rw [analyzeWithBackend, h]
  rfl

/-- One attempt answered 429 at the attempt cap: own catch returns the local
fallback. -/
theorem backend_status_429_cap (net : ℕ → NetOutcome) (f : Features) (a : ℕ)
    (h : net a = .status 429) (ha : ¬ a < retryAttempts) :
    analyzeWithBackend net f a = .ok ⟨performLocalAnalysis f, 1, [], false,
      ["API rate limit exceeded"]⟩ := by
  rw [analyzeWithBackend, h]
  simp [ha]

/-- One attempt answered 429 below the attempt cap: sleep
`retryDelay * attempt`, then retry. -/
theorem backend_status_429_retry (net : ℕ → NetOutcome) (f : Features) (a : ℕ)
    (h : net a = .status 429) (ha : a < retryAttempts) :
    analyzeWithBackend net f a = (analyzeWithBackend net f (a + 1)).map (fun r =>
      { r with attemptsMade := r.attemptsMade + 1
               sleeps := retryDelay * a :: r.sleeps }) := by
  rw [analyzeWithBackend, h]
  simp [ha]

/-- One attempt answered 2xx with a parsed body: the normalized result. -/
theorem backend_ok_body (net : ℕ → NetOutcome) (f : Features) (a : ℕ)
    (body : RemoteBody) (h : net a = .ok body) :
    analyzeWithBackend net f a = .ok ⟨normalizeRemote body f, 1, [], false, []⟩ := by
  rw [analyzeWithBackend, h]

/-- Three consecutive 429 answers: exactly three attempts, sleeps of
1000 ms and 2000 ms between them, then the local fallback. -/
theorem backend_429_three (net : ℕ → NetOutcome) (f : Features)
    (h1 : net 1 = .status 429) (h2 : net 2 = .status 429)
    (h3 : net 3 = .status 429) :
    analyzeWithBackend net f 1 = .ok ⟨performLocalAnalysis f, 3, [1000, 2000],
      false, ["API rate limit exceeded"]⟩ := by
  rw [backend_status_429_retry net f 1 h1 (by norm_num [retryAttempts]),
      backend_status_429_retry net f 2 h2 (by norm_num [retryAttempts]),
      backend_status_429_cap net f 3 h3 (by norm_num [retryAttempts])]
  simp [Except.map, retryDelay]

/-- The fresh-analysis path of the orchestrator: scanning enabled, key
generated, cache miss — the backend outcome is returned, cached, logged to
history; statistics are not updated. -/
theorem handleTry_fresh (settings : Settings) (emailData : EmailData)
    (store : CacheStore) (now : ℕ) (net : ℕ → NetOutcome) (key : String)
    (b : BackendOutcome)
    (he : settings.enabled = true)
    (hk : generateCacheKey emailData = .ok key)
    (hm : (getCachedResult store now key).1 = none)
    (hb : analyzeWithBackend net (extractFeatures emailData) 1 = .ok b) :
    handleTry settings emailData store now net = .ok
      { result := b.result
        networkCalled := true
        attemptsMade := b.attemptsMade
        sleeps := b.sleeps
        authCleared := b.authCleared
        cacheWrites := [(key, b.result)]
        historyAppends := [⟨now, emailData.fromAddr, emailData.subject,
          b.result.prediction, b.result.confidence_score, emailData.provider⟩]
        notified := (b.result.prediction = "phish" || b.result.threat)
          && settings.notificationsEnabled
        statsUpdated := false
        localScorerRan := b.result.local_analysis } := by
  unfold handleTry
  simp only [he, Bool.not_true, Bool.false_eq_true, if_false, hk, hm, hb,
    Except.bind, bind]
  rfl

/-- Claim C1: for every email record and every network behaviour — the
outcome space covers timeout/abort, any HTTP status (401, 429, 500, …) and
malformed 2xx bodies — `handleEmailAnalysis` resolves with an
`AnalysisResult`-carrying outcome and never rejects to its caller. -/
theorem c1_analyze_never_rejects (settings : Settings) (emailData : EmailData)
    (store : CacheStore) (now : ℕ) (net : ℕ → NetOutcome) :
    ∃ o : OrchOutcome, handleEmailAnalysis settings emailData store now net = .ok o := by
  unfold handleEmailAnalysis
  cases handleTry settings emailData store now net <;> exact ⟨_, rfl⟩

/-- Claim C5: the cache `get` returns a stored result only when the entry's
age is below 3600000 ms; an entry at least that old is reported as a miss;
and `get` leaves the store untouched (no deletion). -/
theorem c5_cache_ttl (store : CacheStore) (now : ℕ) (key : String) :
    (∀ r, (getCachedResult store now key).1 = some r →
      ∃ e, store key = some e ∧ r = e.result ∧ now - e.timestamp < 3600000)
    ∧ (∀ e, store key = some e → 3600000 ≤ now - e.timestamp →
        (getCachedResult store now key).1 = none)
    ∧ (getCachedResult store now key).2 = store := by
  refine ⟨?_, ?_, ?_⟩
  · intro r hr
    cases hk : store key with
    | none => simp [getCachedResult, hk] at hr
    | some e =>
      by_cases ht : now - e.timestamp < 3600000
      · refine ⟨e, rfl, ?_, ht⟩
        simp only [getCachedResult, hk, if_pos ht] at hr
        exact (Option.some.inj hr).symm
      · simp [getCachedResult, hk, if_neg ht] at hr
  · intro e he ht
    simp [getCachedResult, he, if_neg (by omega : ¬ now - e.timestamp < 3600000)]
  · unfold getCachedResult
    cases store key with
    | none => rfl
    | some e =>
      show (if now - e.timestamp < 3600000 then
        (some e.result, store) else (none, store)).2 = store
      split <;> rfl

/-- Witness for C5 at concrete inputs: an entry written at time 0 is a miss
at time 4000000 (age ≥ TTL), and a hit at time 10 satisfies the existence
shape. -/
theorem c5_cache_ttl_witness :
    (getCachedResult wStore 4000000 "k").1 = none
    ∧ ∃ e, wStore "k" = some e ∧ wEntry.result = e.result
        ∧ 10 - e.timestamp < 3600000 := by
  constructor
  · exact (c5_cache_ttl wStore 4000000 "k").2.1 wEntry rfl (by decide)
  · exact (c5_cache_ttl wStore 10 "k").1 wEntry.result rfl

/-- Claim C8: with exactly the suspicious-TLD and urgent-language indicators
firing, the local scorer yields confidence 0.30 + 0.20 = 0.5 and no threat
(the boundary is strict `> 0.5`); in general its confidence is the indicator
weight sum clamped to the interval from 0 to 1. -/
theorem c8_local_scorer (f : Features) :
    ((f.has_suspicious_tld ≠ 0 ∧ f.has_urgent_keywords ≠ 0 ∧
      f.has_financial_keywords = 0 ∧ f.has_shortened_urls = 0 ∧
      f.has_display_name_mismatch = 0 ∧ f.has_suspicious_attachments = 0 ∧
      f.num_external_links ≤ 5 ∧ (f.has_spf_pass = true ∨ f.has_dkim_pass = true)) →
      (performLocalAnalysis f).confidence = 1/2
        ∧ (performLocalAnalysis f).threat = false)
    ∧ (performLocalAnalysis f).confidence = min (suspicionScore f) 1
    ∧ 0 ≤ (performLocalAnalysis f).confidence
    ∧ (performLocalAnalysis f).confidence ≤ 1 := by
  have hconf : (performLocalAnalysis f).confidence = min (suspicionScore f) 1 := rfl
  have hnn : 0 ≤ suspicionScore f := by
    unfold suspicionScore
    repeat apply add_nonneg
    all_goals split <;> norm_num
  refine ⟨?_, hconf, ?_, ?_⟩
  · rintro ⟨h1, h2, h3, h4, h5, h6, h7, h8⟩
    have hspf : (!f.has_spf_pass && !f.has_dkim_pass) = false := by
      rcases h8 with h | h <;> simp [h]
    have hs : suspicionScore f = 1/2 := by
      unfold suspicionScore
      rw [if_pos h1, if_pos h2, if_neg (by omega : ¬ f.has_financial_keywords ≠ 0),
        if_neg (by omega : ¬ f.has_shortened_urls ≠ 0),
        if_neg (by omega : ¬ f.has_display_name_mismatch ≠ 0),
        if_neg (by omega : ¬ f.has_suspicious_attachments ≠ 0),
        if_neg (by omega : ¬ f.num_external_links > 5),
        if_neg (by simp [hspf])]
      norm_num
    constructor
    · rw [hconf, hs]
      norm_num
    · have hth : (performLocalAnalysis f).threat
          = decide ((1:ℚ)/2 < min (suspicionScore f) 1) := rfl
      rw [hth, hs, decide_eq_false_iff_not]
      norm_num
  · rw [hconf]
    exact le_min hnn (by norm_num)
  · rw [hconf]
    exact min_le_right _ _

/-- Witness for C8: the concrete two-indicator feature vector scores exactly
one half and is not classified as phishing. -/
theorem c8_local_scorer_witness :
    (performLocalAnalysis fEx).confidence = 1/2
      ∧ (performLocalAnalysis fEx).threat = false :=
  (c8_local_scorer fEx).1 (by refine ⟨?_, ?_, ?_, ?_, ?_, ?_, ?_, Or.inl ?_⟩ <;> decide)

/-- Counterexample to claim C2: on an HTTP 401 during a fresh analysis the
call resolves (`Except.ok`, so no `AuthExpired` condition reaches the caller
of analyze) and the returned result *is* the silently-substituted local
fallback (`fallback`, `local_analysis` both true); only the
credential-clearing and no-retry parts of the claim hold (`authCleared`,
one attempt). -/
theorem c2_counterexample :
    (handleEmailAnalysis settings0 email0 store0 0 net401).map
      (fun o => (o.authCleared, o.attemptsMade, o.result.fallback,
        o.result.local_analysis))
      = .ok (true, 1, true, true) := by
  obtain ⟨key, hk⟩ : ∃ k, generateCacheKey email0 = .ok k := ⟨_, rfl⟩
  have hb := backend_status_401 net401 (extractFeatures email0) 1 rfl
  have ht := handleTry_fresh settings0 email0 store0 0 net401 key _ rfl hk rfl hb
  unfold handleEmailAnalysis
  rw [ht]
  rfl

/-- Claim C2 as amended: on HTTP 401 the stored credentials are cleared
immediately and the request is not retried (one attempt), but the thrown
AuthExpired error is caught inside the client itself and silently converted
into the local fallback, so the caller of analyze receives a usable fallback
classification and no AuthExpired condition. -/
theorem c2_auth_expired_amended (settings : Settings) (emailData : EmailData)
    (store : CacheStore) (now : ℕ) (net : ℕ → NetOutcome) (key : String)
    (he : settings.enabled = true)
    (hk : generateCacheKey emailData = .ok key)
    (hm : (getCachedResult store now key).1 = none)
    (h401 : net 1 = .status 401) :
    ∃ o, handleEmailAnalysis settings emailData store now net = .ok o
      ∧ o.authCleared = true
      ∧ o.attemptsMade = 1
      ∧ o.result = performLocalAnalysis (extractFeatures emailData)
      ∧ o.result.fallback = true := by
  have hb := backend_status_401 net (extractFeatures emailData) 1 h401
  have ht := handleTry_fresh settings emailData store now net key _ he hk hm hb
  exact ⟨_, by unfold handleEmailAnalysis; rw [ht], rfl, rfl, rfl, rfl⟩

/-- Witness for the amended C2 at concrete inputs. -/
theorem c2_auth_expired_witness :
    ∃ o, handleEmailAnalysis settings0 email0 store0 0 net401 = .ok o
      ∧ o.authCleared = true
      ∧ o.attemptsMade = 1
      ∧ o.result = performLocalAnalysis (extractFeatures email0)
      ∧ o.result.fallback = true := by
  obtain ⟨key, hk⟩ : ∃ k, generateCacheKey email0 = .ok k := ⟨_, rfl⟩
  exact c2_auth_expired_amended settings0 email0 store0 0 net401 key rfl hk rfl rfl

/-- Claim C6: with HTTP 429 on three consecutive attempts, the client makes
exactly three attempts, sleeping `retryDelay * attemptNumber` (1000 ms then
2000 ms) between them, makes no fourth attempt, and analyze returns the local
heuristic scorer's result with `fallback = true`. -/
theorem c6_rate_limit_retries (settings : Settings) (emailData : EmailData)
    (store : CacheStore) (now : ℕ) (net : ℕ → NetOutcome) (key : String)
    (he : settings.enabled = true)
    (hk : generateCacheKey emailData = .ok key)
    (hm : (getCachedResult store now key).1 = none)
    (h1 : net 1 = .status 429) (h2 : net 2 = .status 429)
    (h3 : net 3 = .status 429) :
    ∃ o, handleEmailAnalysis settings emailData store now net = .ok o
      ∧ o.attemptsMade = 3
      ∧ o.sleeps = [retryDelay * 1, retryDelay * 2]
      ∧ o.result = performLocalAnalysis (extractFeatures emailData)
      ∧ o.result.fallback = true := by
  have hb := backend_429_three net (extractFeatures emailData) h1 h2 h3
  have ht := handleTry_fresh settings emailData store now net key _ he hk hm hb
  exact ⟨_, by unfold handleEmailAnalysis; rw [ht], rfl, rfl, rfl, rfl⟩

/-- Witness for C6 at concrete inputs. -/
theorem c6_rate_limit_witness :
    ∃ o, handleEmailAnalysis settings0 email0 store0 0 net429 = .ok o
      ∧ o.attemptsMade = 3
      ∧ o.sleeps = [retryDelay * 1, retryDelay * 2]
      ∧ o.result = performLocalAnalysis (extractFeatures email0)
      ∧ o.result.fallback = true := by
  obtain ⟨key, hk⟩ : ∃ k, generateCacheKey email0 = .ok k := ⟨_, rfl⟩
  exact c6_rate_limit_retries settings0 email0 store0 0 net429 key rfl hk rfl
    rfl rfl rfl

/-- Counterexample to claim C3: for the remote body
`{prediction: "legit", is_phishing: true}` the normalized result has
`threat = true` but `prediction = "legit"`, violating
`threat == (prediction == "phish")`. -/
theorem c3_counterexample :
    ¬ ((normalizeRemote bodyBad fEx).threat
      = decide ((normalizeRemote bodyBad fEx).prediction = "phish")) := by
  decide

/-- Claim C3 as amended: the invariant `threat == (prediction == "phish")`
holds for the local fallback result, the scanner-disabled result and the
internal-error result, and for every normalized remote result except when the
body carries a truthy `prediction` other than `"phish"` together with a
truthy `is_phishing` (where the two reconciliations disagree). -/
theorem c3_threat_prediction_amended (f : Features) (body : RemoteBody)
    (e : JsError) :
    ((performLocalAnalysis f).threat
      = decide ((performLocalAnalysis f).prediction = "phish"))
    ∧ (scannerDisabledResult.threat
      = decide (scannerDisabledResult.prediction = "phish"))
    ∧ ((internalErrorResult e).threat
      = decide ((internalErrorResult e).prediction = "phish"))
    ∧ ((¬ ∃ s, body.prediction = some s ∧ s ≠ "" ∧ s ≠ "phish"
          ∧ body.is_phishing = true) →
        (normalizeRemote body f).threat
          = decide ((normalizeRemote body f).prediction = "phish")) := by
  refine ⟨?_, by decide, by simp [internalErrorResult], ?_⟩
  · by_cases hp : (1:ℚ)/2 < min (suspicionScore f) 1
    · simp [performLocalAnalysis, hp]
    · simp [performLocalAnalysis, hp]
  · intro hc
    cases hbp : body.prediction with
    | none =>
      cases hph : body.is_phishing <;>
        simp [normalizeRemote, jsOrStr, predIsPhishStrict, hbp, hph]
    | some s =>
      by_cases hs0 : s = ""
      · subst hs0
        cases hph : body.is_phishing <;>
          simp [normalizeRemote, jsOrStr, predIsPhishStrict, hbp, hph]
      · by_cases hsp : s = "phish"
        · subst hsp
          simp [normalizeRemote, jsOrStr, predIsPhishStrict, hbp, hs0]
        · have hph : body.is_phishing = false := by
            by_contra hph'
            exact hc ⟨s, hbp, hs0, hsp, by simpa using hph'⟩
          simp [normalizeRemote, jsOrStr, predIsPhishStrict, hbp, hs0, hsp, hph]

/-- Witness for the amended C3: the high-confidence phishing body (whose
`prediction` and `is_phishing` do not disagree) satisfies the invariant. -/
theorem c3_threat_prediction_witness :
    (normalizeRemote body95 fEx).threat
      = decide ((normalizeRemote body95 fEx).prediction = "phish") := by
  refine (c3_threat_prediction_amended fEx body95 ⟨"Error", ""⟩).2.2.2 ?_
  rintro ⟨s, hs, -, hsp, -⟩
  rw [show body95.prediction = some "phish" from rfl] at hs
  exact hsp (Option.some.inj hs).symm

/-- Claim C4, the code's divergence: a 2xx body carrying the confidence only
under the `confidence` field name (0.95) and no `threat_level` normalizes to
the reconciled confidence 0.95 but to `threat_level = "LOW"` — because
background.js:245 passes the raw, absent `confidence_score` field to
`determineThreatLevel` — while the bucketing rule itself maps 0.95 to
CRITICAL, as the claim (and the adjacent reconciliation on lines 243-244)
intends. -/
theorem c4_threat_level_divergence :
    (normalizeRemote bodyConfOnly fEx).confidence = 19/20
    ∧ (normalizeRemote bodyConfOnly fEx).threat_level = some "LOW"
    ∧ determineThreatLevel (19/20) = "CRITICAL" := by
  refine ⟨?_, ?_, ?_⟩
  · show jsOrNum none (jsOrNum (some (19/20)) 0) = 19/20
    simp [jsOrNum]
  · rfl
  · unfold determineThreatLevel
    norm_num

/-- Counterexample to claim C7: a fresh analysis (scanning enabled, cold
cache, healthy network) appends one entry to the analysis history but does
not update the statistics store within the analyze call — `handleEmailAnalysis`
never invokes `updateStatistics`; only a separate `updateStats` message does. -/
theorem c7_counterexample :
    (handleEmailAnalysis settings0 email0 store0 5 netOk95).map
      (fun o => (o.statsUpdated, o.historyAppends.length, o.networkCalled))
      = .ok (false, 1, true) := by
  obtain ⟨key, hk⟩ : ∃ k, generateCacheKey email0 = .ok k := ⟨_, rfl⟩
  have hb := backend_ok_body netOk95 (extractFeatures email0) 1 body95 rfl
  have ht := handleTry_fresh settings0 email0 store0 5 netOk95 key _ rfl hk rfl hb
  unfold handleEmailAnalysis
  rw [ht]
  rfl

/-- Claim C7 as amended: a fresh analysis appends exactly one entry to the
analysis-history ring buffer and performs no statistics update itself; the
statistics store is updated only by the separate `updateStats` message, whose
handler `updateStatistics` increments `totalScanned`, conditionally
increments `threatsDetected`, stamps `lastScan`, and bumps the per-provider
`{scanned, threats}` pair (created on first sight). -/
theorem c7_history_and_stats_amended (settings : Settings)
    (emailData : EmailData) (store : CacheStore) (now : ℕ)
    (net : ℕ → NetOutcome) (key : String) (b : BackendOutcome)
    (st : Stats) (nowS : ℕ) (d : StatsEvent)
    (he : settings.enabled = true)
    (hk : generateCacheKey emailData = .ok key)
    (hm : (getCachedResult store now key).1 = none)
    (hb : analyzeWithBackend net (extractFeatures emailData) 1 = .ok b) :
    (∃ o, handleEmailAnalysis settings emailData store now net = .ok o
      ∧ o.historyAppends = [⟨now, emailData.fromAddr, emailData.subject,
          b.result.prediction, b.result.confidence_score, emailData.provider⟩]
      ∧ o.statsUpdated = false)
    ∧ (updateStatistics st nowS d).totalScanned = st.totalScanned + 1
    ∧ (updateStatistics st nowS d).threatsDetected
        = st.threatsDetected + (if d.isThreat then 1 else 0)
    ∧ (updateStatistics st nowS d).lastScan = nowS
    ∧ (updateStatistics st nowS d).providerStats (jsOrStr d.provider "unknown")
        = some
          (((st.providerStats (jsOrStr d.provider "unknown")).getD (0, 0)).1 + 1,
           ((st.providerStats (jsOrStr d.provider "unknown")).getD (0, 0)).2
             + (if d.isThreat then 1 else 0)) := by
  have ht := handleTry_fresh settings emailData store now net key _ he hk hm hb
  refine ⟨⟨_, by unfold handleEmailAnalysis; rw [ht], rfl, rfl⟩, rfl, rfl, rfl, ?_⟩
  simp [updateStatistics]

/-- Witness for the amended C7 at concrete inputs. -/
theorem c7_history_and_stats_witness :
    (∃ o, handleEmailAnalysis settings0 email0 store0 5 netOk95 = .ok o
      ∧ o.historyAppends = [⟨5, email0.fromAddr, email0.subject,
          (normalizeRemote body95 (extractFeatures email0)).prediction,
          (normalizeRemote body95 (extractFeatures email0)).confidence_score,
          email0.provider⟩]
      ∧ o.statsUpdated = false)
    ∧ (updateStatistics st0 7 d0).totalScanned = st0.totalScanned + 1
    ∧ (updateStatistics st0 7 d0).threatsDetected
        = st0.threatsDetected + (if d0.isThreat then 1 else 0)
    ∧ (updateStatistics st0 7 d0).lastScan = 7
    ∧ (updateStatistics st0 7 d0).providerStats (jsOrStr d0.provider "unknown")
        = some
          (((st0.providerStats (jsOrStr d0.provider "unknown")).getD (0, 0)).1 + 1,
           ((st0.providerStats (jsOrStr d0.provider "unknown")).getD (0, 0)).2
             + (if d0.isThreat then 1 else 0)) := by
  obtain ⟨key, hk⟩ : ∃ k, generateCacheKey email0 = .ok k := ⟨_, rfl⟩
  exact c7_history_and_stats_amended settings0 email0 store0 5 netOk95 key
    ⟨normalizeRemote body95 (extractFeatures email0), 1, [], false, []⟩ st0 7 d0
    rfl hk rfl (backend_ok_body netOk95 (extractFeatures email0) 1 body95 rfl)

/-- Base64 prefix stability: the first `4 * n` output characters are
determined by the first `3 * n` input bytes. -/
theorem btoaBytes_take : ∀ (n : ℕ) (l1 l2 : List ℕ),
    l1.take (3 * n) = l2.take (3 * n) →
    (btoaBytes l1).take (4 * n) = (btoaBytes l2).take (4 * n) := by
  intro n
  induction n with
  | zero => intro l1 l2 _; simp
  | succ n ih =>
    intro l1 l2 h
    by_cases h1 : l1.length ≤ 2 <;> by_cases h2 : l2.length ≤ 2
    · have e1 : l1.take (3 * (n + 1)) = l1 := List.take_of_length_le (by omega)
      have e2 : l2.take (3 * (n + 1)) = l2 := List.take_of_length_le (by omega)
      rw [e1, e2] at h
      rw [h]
    · exfalso
      have hl := congrArg List.length h
      simp only [List.length_take] at hl
      omega
    · exfalso
      have hl := congrArg List.length h
      simp only [List.length_take] at hl
      omega
    · rcases l1 with _ | ⟨a, _ | ⟨b, _ | ⟨c, r1⟩⟩⟩ <;> simp at h1
      rcases l2 with _ | ⟨a', _ | ⟨b', _ | ⟨c', r2⟩⟩⟩ <;> simp at h2
      have e3 : 3 * (n + 1) = 3 * n + 1 + 1 + 1 := by ring
      rw [e3, List.take_succ_cons, List.take_succ_cons, List.take_succ_cons] at h
      injection h with ha h
      injection h with hb h
      injection h with hc h
      subst ha hb hc
      have e4 : 4 * (n + 1) = 4 * n + 1 + 1 + 1 + 1 := by ring
      have bb : ∀ (x y z : ℕ) (r : List ℕ),
          btoaBytes (x :: y :: z :: r)
            = b64Char (x / 4) :: b64Char (x % 4 * 16 + y / 16)
              :: b64Char (y % 16 * 4 + z / 64) :: b64Char (z % 64)
              :: btoaBytes r :=
        fun _ _ _ _ => rfl
      rw [bb, bb, e4, List.take_succ_cons, List.take_succ_cons,
        List.take_succ_cons, List.take_succ_cons, List.take_succ_cons,
        List.take_succ_cons, List.take_succ_cons, List.take_succ_cons,
        ih r1 r2 h]

/-- Counterexample to claim C9: two records agreeing on the 24-character
prefix of `sender ++ subject ++ bodyText` for which `generateCacheKey` does
not return identical keys — the second record's remainder contains a
character above the Latin-1 range, so `btoa` throws for it instead of
returning a key at all. -/
theorem c9_counterexample :
    (cacheContent eA).toList.take 24 = (cacheContent eB).toList.take 24
    ∧ generateCacheKey eA ≠ generateCacheKey eB := by
  constructor
  · decide
  · intro h
    obtain ⟨k, hA⟩ : ∃ k, generateCacheKey eA = .ok k := ⟨_, rfl⟩
    obtain ⟨e, hB⟩ : ∃ e, generateCacheKey eB = .error e := ⟨_, rfl⟩
    rw [hA, hB] at h
    exact Except.noConfusion h

/-- Claim C9 as amended: for any two email records whose cache content is
entirely within the Latin-1 range (so `btoa` does not throw) and which agree
on the 24-character prefix of `sender ++ subject ++ bodyText`, the generated
cache keys are identical, whatever the remainders are. -/
theorem c9_cache_key_prefix (e1 e2 : EmailData)
    (h1 : (cacheContent e1).toList.all (fun c => c.toNat ≤ 255) = true)
    (h2 : (cacheContent e2).toList.all (fun c => c.toNat ≤ 255) = true)
    (hp : (cacheContent e1).toList.take 24 = (cacheContent e2).toList.take 24) :
    generateCacheKey e1 = generateCacheKey e2 := by
  unfold generateCacheKey btoa
  rw [if_pos h1, if_pos h2]
  have h24 : ((cacheContent e1).toList.map Char.toNat).take (3 * 8)
      = ((cacheContent e2).toList.map Char.toNat).take (3 * 8) := by
    rw [show 3 * 8 = 24 from rfl, ← List.map_take, ← List.map_take, hp]
  have h32 := btoaBytes_take 8 _ _ h24
  simp only [Except.map]
  exact congrArg (fun l => Except.ok (String.mk l)) h32

/-- Witness for the amended C9: two Latin-1 records agreeing on the prefix
with different tails get the same key. -/
theorem c9_cache_key_witness : generateCacheKey eA = generateCacheKey eC :=
  c9_cache_key_prefix eA eC (by decide) (by decide) (by decide)

/-- Claim C10: if the sender, subject, or (present) body text contains a
character above the Latin-1 range and scanning is enabled, cache-key
generation throws inside the `try`, the top-level catch returns the
error-shaped result (`prediction = "error"`, no threat, `fallback = true`),
and the call performs no network attempt, no local-scorer classification, no
cache write and no history append. -/
theorem c10_nonlatin1_short_circuit (settings : Settings)
    (emailData : EmailData) (store : CacheStore) (now : ℕ)
    (net : ℕ → NetOutcome)
    (he : settings.enabled = true)
    (hc : ∃ c, 255 < c.toNat ∧ (c ∈ emailData.fromAddr.toList
      ∨ c ∈ emailData.subject.toList
      ∨ c ∈ (emailData.bodyText.getD "").toList)) :
    ∃ o, handleEmailAnalysis settings emailData store now net = .ok o
      ∧ o.result.prediction = "error"
      ∧ o.result.threat = false
      ∧ o.result.fallback = true
      ∧ o.networkCalled = false
      ∧ o.attemptsMade = 0
      ∧ o.localScorerRan = false
      ∧ o.cacheWrites = []
      ∧ o.historyAppends = []
      ∧ o.statsUpdated = false := by
  obtain ⟨c, hgt, hmem⟩ := hc
  have hmemc : c ∈ (cacheContent emailData).toList := by
    unfold cacheContent
    simp only [String.toList, String.data_append, List.mem_append]
    rcases hmem with h | h | h
    · exact Or.inl (Or.inl h)
    · exact Or.inl (Or.inr h)
    · exact Or.inr h
  have hall : ((cacheContent emailData).toList.all
      (fun c => c.toNat ≤ 255)) = false := by
    by_contra hne
    have htrue : ((cacheContent emailData).toList.all
        (fun c => c.toNat ≤ 255)) = true := by
      cases hb : (cacheContent emailData).toList.all (fun c => c.toNat ≤ 255)
      · exact absurd hb hne
      · rfl
    have := of_decide_eq_true (List.all_eq_true.mp htrue c hmemc)
    omega
  have hkey : generateCacheKey emailData = .error
      ⟨"InvalidCharacterError", "The string to be encoded contains characters outside of the Latin1 range."⟩ := by
    have hnot : ¬ ((cacheContent emailData).toList.all
        (fun c => c.toNat ≤ 255) = true) := by
      rw [hall]
      exact Bool.false_ne_true
    unfold generateCacheKey btoa
    rw [if_neg hnot]
    rfl
  have ht : handleTry settings emailData store now net = .error
      ⟨"InvalidCharacterError", "The string to be encoded contains characters outside of the Latin1 range."⟩ := by
    unfold handleTry
    simp only [he, Bool.not_true, Bool.false_eq_true, if_false, hkey,
      Except.bind, bind]
    rfl
  exact ⟨_, by unfold handleEmailAnalysis; rw [ht], rfl, rfl, rfl, rfl, rfl,
    rfl, rfl, rfl, rfl⟩

/-- Witness for C10: a record whose subject contains U+014D produces the
error-shaped result with no side effects. -/
theorem c10_nonlatin1_witness :
    ∃ o, handleEmailAnalysis settings0 emailHigh store0 0 netOk95 = .ok o
      ∧ o.result.prediction = "error"
      ∧ o.result.threat = false
      ∧ o.result.fallback = true
      ∧ o.networkCalled = false
      ∧ o.attemptsMade = 0
      ∧ o.localScorerRan = false
      ∧ o.cacheWrites = []
      ∧ o.historyAppends = []
      ∧ o.statsUpdated = false :=
  c10_nonlatin1_short_circuit settings0 emailHigh store0 0 netOk95 rfl
    ⟨'ō', by decide, Or.inr (Or.inl (by decide))⟩

end PhishIntel
